import Mathlib

/-!
Verification development for the recurring-event materialization engine of
the talawa-api repository.

The embedding covers:
* `generateRecurrenceRuleString` and `getRecurringInstanceDates` from
  `src/graphql/types/Event/recurringEventHelpers.ts`;
* the `createEvent` mutation resolver from
  `src/graphql/types/Mutation/createEvent.ts`, including its attachment
  validation, authorization checks and the transactional recurring /
  simple persistence paths.

Instants are modelled as natural numbers of milliseconds since the Unix
epoch (UTC), matching JavaScript `Date.getTime()`.  The semantics of the
external `rrule` library (rule-string serialization, parsing and
occurrence expansion), of `date-fns`' `addYears`, and of zod's enum-array
validation are not part of the repository's sources; those parts are
modelled from the specification and marked as such in their doc comments.
-/

set_option autoImplicit false

deriving instance DecidableEq for Except

namespace Talawa

/-- Milliseconds in one day. -/
def msPerDay : Nat := 86400000

/-- An absolute instant: milliseconds since the Unix epoch (UTC). -/
abbrev Instant := Nat

/-- Number of days since 1970-01-01 for a civil date (proleptic Gregorian).
Closed-form civil-from-days algorithm; pure integer arithmetic. -/
def daysFromCivil (y m d : Int) : Int :=
  let y2 := if m ≤ 2 then y - 1 else y
  let era := Int.fdiv y2 400
  let yoe := y2 - era * 400
  let mp := if m > 2 then m - 3 else m + 9
  let doy := Int.fdiv (153 * mp + 2) 5 + d - 1
  let doe := yoe * 365 + Int.fdiv yoe 4 - Int.fdiv yoe 100 + doy
  era * 146097 + doe - 719468

/-- Civil date (year, month, day) of a day count since 1970-01-01. -/
def civilFromDays (z0 : Int) : Int × Int × Int :=
  let z := z0 + 719468
  let era := Int.fdiv z 146097
  let doe := z - era * 146097
  let yoe := Int.fdiv (doe - Int.fdiv doe 1460 + Int.fdiv doe 36524 - Int.fdiv doe 146096) 365
  let y := yoe + era * 400
  let doy := doe - (365 * yoe + Int.fdiv yoe 4 - Int.fdiv yoe 100)
  let mp := Int.fdiv (5 * doy + 2) 153
  let d := doy - Int.fdiv (153 * mp + 2) 5 + 1
  let m := if mp < 10 then mp + 3 else mp - 9
  (if m ≤ 2 then y + 1 else y, m, d)

/-- Gregorian leap-year test. -/
def isLeapYear (y : Int) : Bool :=
  y % 4 == 0 && (y % 100 != 0 || y % 400 == 0)

/-- Number of days in a month of a given year. -/
def daysInMonth (y m : Int) : Int :=
  if m == 2 then (if isLeapYear y then 29 else 28)
  else if m == 4 || m == 6 || m == 9 || m == 11 then 30
  else 31

/-- Modelled from the spec: `date-fns`' `addYears(date, 1)` (the library is
not part of the repository sources).  Advances the civil date by one year,
clamping the day of month (Feb 29 becomes Feb 28), preserving the time of
day. -/
def addOneYear (t : Instant) : Instant :=
  let dayN := t / msPerDay
  let tod := t % msPerDay
  let c := civilFromDays (dayN : Int)
  let y := c.1
  let m := c.2.1
  let d := c.2.2
  let d2 := min d (daysInMonth (y + 1) m)
  (daysFromCivil (y + 1) m d2).toNat * msPerDay + tod

/-- Convenience constructor: the instant at midnight UTC of a civil date. -/
def mkInstant (y m d : Int) : Instant :=
  (daysFromCivil y m d).toNat * msPerDay

/-- Recurrence frequency, as restricted by the repository's
`recurrenceInputSchema` (`z.enum(["DAILY", "WEEKLY", "MONTHLY", "YEARLY"])`). -/
inductive Frequency where
  | DAILY
  | WEEKLY
  | MONTHLY
  | YEARLY
  deriving DecidableEq, Repr

/-- The `WEEKDAY_MAP` of `recurringEventHelpers.ts`: two-letter weekday
codes to ordinals MO=0 … SU=6; an unknown code yields no value (in the
source, an `undefined` lookup result). -/
def WEEKDAY_MAP (s : String) : Option Nat :=
  if s = "MO" then some 0
  else if s = "TU" then some 1
  else if s = "WE" then some 2
  else if s = "TH" then some 3
  else if s = "FR" then some 4
  else if s = "SA" then some 5
  else if s = "SU" then some 6
  else none

/-- Inverse of `WEEKDAY_MAP` on its range, used when serializing
`byweekday` ordinals back to codes (rrule's weekday serialization). -/
def dayCodeOfNat (n : Nat) : String :=
  if n = 0 then "MO"
  else if n = 1 then "TU"
  else if n = 2 then "WE"
  else if n = 3 then "TH"
  else if n = 4 then "FR"
  else if n = 5 then "SA"
  else if n = 6 then "SU"
  else "XX"

/-- Name of a frequency as it appears in a serialized RRULE string. -/
def freqName : Frequency → String
  | .DAILY => "DAILY"
  | .WEEKLY => "WEEKLY"
  | .MONTHLY => "MONTHLY"
  | .YEARLY => "YEARLY"

/-- The `RecurrenceInput` interface of `recurringEventHelpers.ts`. -/
structure RecurrenceInput where
  frequency : Frequency
  interval : Option Nat := none
  recurrenceStartDate : Option Instant := none
  recurrenceEndDate : Option Instant := none
  count : Option Nat := none
  byDay : Option (List String) := none
  byMonth : Option (List Nat) := none
  byMonthDay : Option (List Nat) := none
  deriving DecidableEq, Repr

/-- The rrule options record assembled by `generateRecurrenceRuleString`
(the fields of the library's `Options` that the repository actually sets). -/
structure RuleOptions where
  freq : Frequency
  interval : Nat
  dtstart : Instant
  count : Option Nat
  untilDate : Option Instant
  byweekday : Option (List Nat)
  bymonth : Option (List Nat)
  bymonthday : Option (List Nat)
  deriving DecidableEq, Repr

/-- Looks up every `byDay` code in `WEEKDAY_MAP`; yields no value as soon
as one code is unknown (the source's `.map` produces an `undefined` entry
that the rrule constructor then rejects). -/
def lookupWeekdays : List String → Option (List Nat)
  | [] => some []
  | d :: ds =>
    match WEEKDAY_MAP d, lookupWeekdays ds with
    | some w, some ws => some (w :: ws)
    | _, _ => none

/-- Builds the rrule options exactly as `generateRecurrenceRuleString` does:
`interval: recurrence.interval || 1` (so 0 or absent becomes 1),
`dtstart: recurrence.recurrenceStartDate || new Date()` (absent start falls
back to the current wall-clock time `now`), `if (recurrence.count)` (0 or
absent leaves the count unset), `if (recurrence.recurrenceEndDate)`, and
the `byDay`/`byMonth`/`byMonthDay` blocks guarded by non-emptiness.
The `byDay` codes are looked up in `WEEKDAY_MAP`; an unknown code makes the
whole call fail (modelled from the spec: the external rrule constructor
rejects the `undefined` entry the source's lookup produces — "unknown codes
fail encoding"). -/
def ruleOptionsOf (recurrence : RecurrenceInput) (now : Instant) :
    Except String RuleOptions := do
  let interval := match recurrence.interval with
    | none => 1
    | some i => if i = 0 then 1 else i
  let dtstart := recurrence.recurrenceStartDate.getD now
  let count := match recurrence.count with
    | none => none
    | some c => if c = 0 then none else some c
  let untilDate := recurrence.recurrenceEndDate
  let byweekday ← match recurrence.byDay with
    | some (d :: ds) =>
      match lookupWeekdays (d :: ds) with
      | some ws => pure (some ws)
      | none => throw "invalid weekday code in byDay"
    | _ => pure none
  let bymonth := match recurrence.byMonth with
    | some (m :: ms) => some (m :: ms)
    | _ => none
  let bymonthday := match recurrence.byMonthDay with
    | some (d :: ds) => some (d :: ds)
    | _ => none
  pure { freq := recurrence.frequency, interval := interval, dtstart := dtstart,
         count := count, untilDate := untilDate, byweekday := byweekday,
         bymonth := bymonth, bymonthday := bymonthday }

/-- Digit character of a value below ten. -/
def digitChar (n : Nat) : Char := Char.ofNat (48 + n)

/-- Two-digit zero-padded rendering. -/
def pad2 (n : Nat) : List Char := [digitChar (n / 10 % 10), digitChar (n % 10)]

/-- Four-digit zero-padded rendering. -/
def pad4 (n : Nat) : List Char :=
  [digitChar (n / 1000 % 10), digitChar (n / 100 % 10),
   digitChar (n / 10 % 10), digitChar (n % 10)]

/-- Modelled from the spec: rrule's UTC date-time rendering
`YYYYMMDDTHHMMSSZ` used for DTSTART and UNTIL values. -/
def fmtDateTime (t : Instant) : List Char :=
  let dayN := t / msPerDay
  let tod := t % msPerDay
  let c := civilFromDays (dayN : Int)
  let secs := tod / 1000
  pad4 c.1.toNat ++ pad2 c.2.1.toNat ++ pad2 c.2.2.toNat ++ ['T'] ++
    pad2 (secs / 3600) ++ pad2 (secs / 60 % 60) ++ pad2 (secs % 60) ++ ['Z']

/-- Modelled from the spec: the RRULE key-value fields emitted by rrule's
`toString` for the options the repository sets, in the insertion order of
the options object built by `generateRecurrenceRuleString`
(freq, interval, count, until, bymonth, bymonthday, byweekday); fields
whose value is unset are omitted. -/
def ruleFields (o : RuleOptions) : List (String × String) :=
  [("FREQ", freqName o.freq), ("INTERVAL", toString o.interval)]
  ++ (match o.count with
      | some c => [("COUNT", toString c)]
      | none => [])
  ++ (match o.untilDate with
      | some u => [("UNTIL", String.mk (fmtDateTime u))]
      | none => [])
  ++ (match o.bymonth with
      | some ms => [("BYMONTH", String.intercalate "," (ms.map toString))]
      | none => [])
  ++ (match o.bymonthday with
      | some ds => [("BYMONTHDAY", String.intercalate "," (ds.map toString))]
      | none => [])
  ++ (match o.byweekday with
      | some ws => [("BYDAY", String.intercalate "," (ws.map dayCodeOfNat))]
      | none => [])

/-- Modelled from the spec: rrule's `toString` — a DTSTART line followed by
the RRULE line with `;`-separated `KEY=VALUE` fields. -/
def toRRuleString (o : RuleOptions) : String :=
  "DTSTART:" ++ String.mk (fmtDateTime o.dtstart) ++ "\n" ++
    "RRULE:" ++ String.intercalate ";" ((ruleFields o).map (fun p => p.1 ++ "=" ++ p.2))

/-- `generateRecurrenceRuleString` of `recurringEventHelpers.ts`: builds the
rrule options from the recurrence input and serializes them.  `now` is the
wall-clock time observed by the source's `new Date()` fallback for an
absent `recurrenceStartDate`. -/
def generateRecurrenceRuleString (recurrence : RecurrenceInput) (now : Instant) :
    Except String String :=
  (ruleOptionsOf recurrence now).map toRRuleString

/-- Splits a character list at every occurrence of a separator. -/
def splitOnChar (c : Char) : List Char → List (List Char)
  | [] => [[]]
  | x :: xs =>
    let r := splitOnChar c xs
    if x = c then [] :: r
    else
      match r with
      | y :: ys => (x :: y) :: ys
      | [] => [[x]]

/-- Drops an expected literal text from the front of a character list. -/
def dropLit : List Char → List Char → Option (List Char)
  | [], rest => some rest
  | p :: ps, x :: xs => if x = p then dropLit ps xs else none
  | _ :: _, [] => none

/-- Numeric value of a decimal digit character. -/
def digitVal (c : Char) : Option Nat :=
  if 48 ≤ c.toNat ∧ c.toNat ≤ 57 then some (c.toNat - 48) else none

/-- Parses a non-empty all-digit character list as a natural number. -/
def parseNatChars (cs : List Char) : Option Nat :=
  match cs with
  | [] => none
  | _ => cs.foldlM (fun acc c => (digitVal c).map (fun v => acc * 10 + v)) 0

/-- Parses a `YYYYMMDDTHHMMSSZ` UTC date-time into an instant. -/
def parseDateTime (cs : List Char) : Option Instant :=
  match cs with
  | [y1, y2, y3, y4, mo1, mo2, d1, d2, t, h1, h2, mi1, mi2, s1, s2, z] =>
    if t = 'T' ∧ z = 'Z' then do
      let y ← parseNatChars [y1, y2, y3, y4]
      let mo ← parseNatChars [mo1, mo2]
      let d ← parseNatChars [d1, d2]
      let h ← parseNatChars [h1, h2]
      let mi ← parseNatChars [mi1, mi2]
      let s ← parseNatChars [s1, s2]
      some ((daysFromCivil (y : Int) (mo : Int) (d : Int)).toNat * msPerDay +
        ((h * 60 + mi) * 60 + s) * 1000)
    else none
  | _ => none

/-- Parses a frequency name. -/
def parseFreq (cs : List Char) : Option Frequency :=
  if cs = "DAILY".toList then some .DAILY
  else if cs = "WEEKLY".toList then some .WEEKLY
  else if cs = "MONTHLY".toList then some .MONTHLY
  else if cs = "YEARLY".toList then some .YEARLY
  else none

/-- Parses a two-letter weekday code into its ordinal (MO=0 … SU=6). -/
def parseWeekdayCode (cs : List Char) : Option Nat :=
  if cs = "MO".toList then some 0
  else if cs = "TU".toList then some 1
  else if cs = "WE".toList then some 2
  else if cs = "TH".toList then some 3
  else if cs = "FR".toList then some 4
  else if cs = "SA".toList then some 5
  else if cs = "SU".toList then some 6
  else none

/-- Partially parsed RRULE fields, folded over the `;`-separated parts.
rrule's parser defaults an absent INTERVAL to 1. -/
structure PartialRule where
  freq : Option Frequency := none
  interval : Nat := 1
  count : Option Nat := none
  untilDate : Option Instant := none
  byweekday : Option (List Nat) := none
  bymonth : Option (List Nat) := none
  bymonthday : Option (List Nat) := none
  deriving DecidableEq, Repr

/-- Parses one `KEY=VALUE` part of an RRULE line. -/
def parseRulePart (acc : PartialRule) (part : List Char) : Option PartialRule :=
  match splitOnChar '=' part with
  | [k, v] =>
    if k = "FREQ".toList then (parseFreq v).map (fun f => { acc with freq := some f })
    else if k = "INTERVAL".toList then (parseNatChars v).map (fun i => { acc with interval := i })
    else if k = "COUNT".toList then (parseNatChars v).map (fun c => { acc with count := some c })
    else if k = "UNTIL".toList then (parseDateTime v).map (fun u => { acc with untilDate := some u })
    else if k = "BYDAY".toList then
      ((splitOnChar ',' v).mapM parseWeekdayCode).map (fun ws => { acc with byweekday := some ws })
    else if k = "BYMONTH".toList then
      ((splitOnChar ',' v).mapM parseNatChars).map (fun ms => { acc with bymonth := some ms })
    else if k = "BYMONTHDAY".toList then
      ((splitOnChar ',' v).mapM parseNatChars).map (fun ds => { acc with bymonthday := some ds })
    else none
  | _ => none

/-- Modelled from the spec: rrule's `rrulestr` applied to the strings this
repository produces — a `DTSTART:` line followed by an `RRULE:` line.
Returns `none` (the library throws) on anything malformed. -/
def parseRuleString (s : String) : Option RuleOptions := do
  match splitOnChar '\n' s.toList with
  | [l1, l2] => do
    let dtRest ← dropLit "DTSTART:".toList l1
    let dtstart ← parseDateTime dtRest
    let rRest ← dropLit "RRULE:".toList l2
    let parts := splitOnChar ';' rRest
    let pr ← parts.foldlM parseRulePart {}
    let f ← pr.freq
    some { freq := f, interval := pr.interval, dtstart := dtstart,
           count := pr.count, untilDate := pr.untilDate,
           byweekday := pr.byweekday, bymonth := pr.bymonth,
           bymonthday := pr.bymonthday }
  | _ => none

/-- Weekday ordinal (MO=0 … SU=6) of a day count since the epoch
(1970-01-01 was a Thursday, ordinal 3). -/
def weekdayOfDay (d : Nat) : Nat := (d + 3) % 7

/-- Monday-aligned week index of a day count (rrule's default week start). -/
def weekIdx (d : Nat) : Nat := (d + 3) / 7

/-- Modelled from the spec: whether the candidate occurrence
`dtstart + k days` belongs to the recurrence pattern, following the
RFC 5545 semantics the external rrule library implements for the option
subset this repository can produce (DAILY/WEEKLY/MONTHLY/YEARLY with
optional BYDAY / BYMONTH / BYMONTHDAY).  All occurrences preserve the time
of day of `dtstart`. -/
def matchesDay (o : RuleOptions) (k : Nat) : Bool :=
  let d0 := o.dtstart / msPerDay
  let d := d0 + k
  let wd := weekdayOfDay d
  let c := civilFromDays (d : Int)
  let c0 := civilFromDays (d0 : Int)
  let weekdayLimit := match o.byweekday with
    | some ws => ws.contains wd
    | none => true
  let monthLimit := match o.bymonth with
    | some ms => ms.contains c.2.1.toNat
    | none => true
  let monthdayLimit := match o.bymonthday with
    | some ds => ds.contains c.2.2.toNat
    | none => true
  match o.freq with
  | .DAILY => k % o.interval == 0 && weekdayLimit && monthLimit && monthdayLimit
  | .WEEKLY =>
    (weekIdx d - weekIdx d0) % o.interval == 0 &&
    (match o.byweekday with
     | some ws => ws.contains wd
     | none => wd == weekdayOfDay d0) &&
    monthLimit
  | .MONTHLY =>
    ((c.1 - c0.1) * 12 + (c.2.1 - c0.2.1)) % (o.interval : Int) == 0 &&
    (match o.bymonthday with
     | some ds => ds.contains c.2.2.toNat
     | none => c.2.2 == c0.2.2) &&
    weekdayLimit && monthLimit
  | .YEARLY =>
    (c.1 - c0.1) % (o.interval : Int) == 0 &&
    (match o.bymonth with
     | some ms => ms.contains c.2.1.toNat
     | none => c.2.1 == c0.2.1) &&
    (match o.bymonthday with
     | some ds => ds.contains c.2.2.toNat
     | none => c.2.2 == c0.2.2) &&
    weekdayLimit

/-- Modelled from the spec: the ascending occurrence sequence of a rule,
cut at `upTo` (and at the rule's UNTIL instant, inclusive), with a COUNT
cap applied to the sequence as counted from `dtstart`. -/
def occurrencesUpTo (o : RuleOptions) (upTo : Instant) : List Instant :=
  let cap := match o.untilDate with
    | some u => min u upTo
    | none => upTo
  if cap < o.dtstart then []
  else
    let n := (cap - o.dtstart) / msPerDay + 1
    let all := (List.range n).filterMap
      (fun k => if matchesDay o k then some (o.dtstart + k * msPerDay) else none)
    match o.count with
    | some c => all.take c
    | none => all

/-- Modelled from the spec: rrule's `between(after, before, true)` — the
occurrences lying in the inclusive window `[after, before]`. -/
def rruleBetween (o : RuleOptions) (after before : Instant) : List Instant :=
  (occurrencesUpTo o before).filter (fun t => after ≤ t && t ≤ before)

/-- `getRecurringInstanceDates` of `recurringEventHelpers.ts`: parses the
rule string (`rrulestr`; a parse failure is a thrown error), defaults the
bound via `endDate || queryEndDate || addYears(new Date(), 1)`, and
collects the occurrences in the inclusive window.  `now` is the wall-clock
time observed by the source's `new Date()`. -/
def getRecurringInstanceDates (rRuleString : String) (startDate : Instant)
    (endDate : Option Instant) (queryEndDate : Option Instant) (now : Instant) :
    Except String (List Instant) :=
  match parseRuleString rRuleString with
  | none => .error "invalid recurrence rule string"
  | some rule =>
    let effectiveEndDate := endDate.getD (queryEndDate.getD (addOneYear now))
    .ok (rruleBetween rule startDate effectiveEndDate)

/-- Stored role of a user (`usersTable.role` as read by the resolver). -/
inductive UserRole where
  | administrator
  | regular
  deriving DecidableEq, Repr

/-- Role of an organization membership. -/
inductive MembershipRole where
  | administrator
  | regular
  deriving DecidableEq, Repr

/-- The organization as read by the resolver: the memberships list is
`membershipsWhereOrganization` already filtered to the current user. -/
structure OrgData where
  memberships : List MembershipRole
  deriving DecidableEq, Repr

/-- A segment of an error's `argumentPath`. -/
inductive PathSeg where
  | str (s : String)
  | idx (n : Nat)
  deriving DecidableEq, Repr

/-- One issue of an `invalid_arguments` error. -/
structure Issue where
  argumentPath : List PathSeg
  message : String
  deriving DecidableEq, Repr

/-- The error codes `createEvent` can raise.  `internal` stands for a plain
thrown `Error` (the rrule constructor / parser failures), which aborts the
transaction without a Talawa error code. -/
inductive ErrCode where
  | unauthenticated
  | invalid_arguments (issues : List Issue)
  | arguments_associated_resources_not_found (paths : List (List PathSeg))
  | unauthorized_action_on_arguments_associated_resources (paths : List (List PathSeg))
  | unexpected
  | internal (msg : String)
  deriving DecidableEq, Repr

/-- An `events` table row, restricted to the columns `createEvent` writes.
Identifiers are modelled as naturals drawn from a per-transaction counter
(standing for the generated uuidv7 values). -/
structure EventRow where
  id : Nat
  creatorId : String
  description : Option String
  name : String
  organizationId : String
  startAt : Instant
  endAt : Instant
  isRecurring : Bool := false
  isBaseRecurringEvent : Bool := false
  baseRecurringEventId : Option Nat := none
  recurrenceRuleId : Option Nat := none
  deriving DecidableEq, Repr

/-- A `recurrence_rules` table row, restricted to the columns written.
The `frequency` is stored exactly as the resolver passes it
(`recurrence.frequency`, not defaulted). -/
structure RuleRow where
  id : Nat
  creatorId : String
  recurrenceRuleString : String
  recurrenceStartDate : Instant
  recurrenceEndDate : Option Instant
  frequency : Option Frequency
  interval : Nat
  count : Option Nat
  byDay : Option (List String)
  byMonth : Option (List Nat)
  byMonthDay : Option (List Nat)
  organizationId : String
  baseRecurringEventId : Nat
  latestInstanceDate : Instant
  deriving DecidableEq, Repr

/-- An `event_attachments` table row; `name` is the generated ulid,
modelled as a counter value. -/
structure AttachmentRow where
  creatorId : String
  eventId : Nat
  mimeType : String
  name : Nat
  deriving DecidableEq, Repr

/-- One object-store write issued by `ctx.minio.client.putObject`: the
bucket, the object key, the declared content type, and the index of the
source attachment whose stream is written. -/
structure BlobWrite where
  bucket : String
  key : Nat
  contentType : String
  attachmentIndex : Nat
  deriving DecidableEq, Repr

/-- The rows inserted and blob writes issued inside one transaction. -/
structure TxState where
  events : List EventRow
  rules : List RuleRow
  attachments : List AttachmentRow
  blobs : List BlobWrite
  nextId : Nat
  deriving DecidableEq, Repr

/-- The empty transaction state. -/
def TxState.empty : TxState := ⟨[], [], [], [], 0⟩

/-- The resolver's return value: the event row handed back (after the
`Object.assign` decoration) together with its attachment list. -/
structure CreateEventRes where
  event : EventRow
  attachments : List AttachmentRow
  deriving DecidableEq, Repr

/-- The recurrence part of the mutation input as `createEvent` reads it
(the resolver treats `frequency` as possibly absent and defaults it). -/
structure RecurrenceSpec where
  frequency : Option Frequency := none
  interval : Option Nat := none
  count : Option Nat := none
  recurrenceEndDate : Option Instant := none
  byDay : Option (List String) := none
  byMonth : Option (List Nat) := none
  byMonthDay : Option (List Nat) := none
  deriving DecidableEq, Repr

/-- The mutation input; attachments are represented by their declared mime
types (the byte streams are opaque). -/
structure CreateEventInput where
  name : String
  description : Option String := none
  organizationId : String
  startAt : Instant
  endAt : Instant
  recurrence : Option RecurrenceSpec := none
  attachments : Option (List String) := none
  deriving DecidableEq, Repr

/-- The request context visible to the resolver: session state, the user
row and the organization row the two parallel reads return, the minio
bucket, the wall clock, and the attachment mime-type allow list (the
external `eventAttachmentMimeTypeEnum`, kept abstract). -/
structure Ctx where
  isAuthenticated : Bool
  currentUserId : String
  currentUser : Option UserRole
  organization : Option OrgData
  bucketName : String
  now : Instant
  allowedMime : String → Bool

/-- The attachment mime-type validation of
`mutationCreateEventArgumentsSchema`: zod's enum-array check yields one
issue per invalid index (modelled from the spec), and the transform turns
each into a custom issue at path `input.attachments[i]` with the message
the source formats. -/
def checkAttachments (allowed : String → Bool) (attachments : Option (List String)) :
    List Issue :=
  match attachments with
  | none => []
  | some mimes =>
    (mimes.enum.filter (fun p => !allowed p.2)).map
      (fun p => { argumentPath := [.str "input", .str "attachments", .idx p.1],
                  message := "Mime type \"" ++ p.2 ++ "\" is not allowed." })

/-- The `RecurrenceInput` value `createEvent` passes to
`generateRecurrenceRuleString`: the parsed recurrence spread together with
`frequency: recurrence.frequency || "DAILY"` and
`recurrenceStartDate: parsedArgs.input.startAt`. -/
def recInputOf (rec : RecurrenceSpec) (startAt : Instant) : RecurrenceInput :=
  { frequency := rec.frequency.getD .DAILY
    interval := rec.interval
    recurrenceStartDate := some startAt
    recurrenceEndDate := rec.recurrenceEndDate
    count := rec.count
    byDay := rec.byDay
    byMonth := rec.byMonth
    byMonthDay := rec.byMonthDay }

/-- The attachment persistence block shared by both paths: one
`event_attachments` row per attachment (each with a freshly generated
name), then one `putObject` call per returned row, guarded by the source's
`if (attachments[index] !== undefined)` check, keyed by the row's name and
tagged with the row's mime type. -/
def persistAttachmentsFor (bucket creatorId : String) (mimes : List String)
    (eventId : Nat) (st : TxState) : TxState × List AttachmentRow :=
  let rows := mimes.enum.map (fun p =>
    { creatorId := creatorId, eventId := eventId, mimeType := p.2,
      name := st.nextId + p.1 : AttachmentRow })
  let writes := rows.enum.filterMap (fun p =>
    match mimes.get? p.1 with
    | some _ => some { bucket := bucket, key := p.2.name,
                       contentType := p.2.mimeType, attachmentIndex := p.1 : BlobWrite }
    | none => none)
  ({ st with attachments := st.attachments ++ rows,
             blobs := st.blobs ++ writes,
             nextId := st.nextId + rows.length }, rows)

/-- The tail of the transaction body from line 335 of `createEvent.ts`: the
standalone event insert (no recurrence flags) followed by the attachment
block.  It is reached on the simple path and, by fall-through, on the
recurring path when no instance date was expanded. -/
def simplePath (ctx : Ctx) (input : CreateEventInput) (st : TxState) :
    Except ErrCode (TxState × CreateEventRes) :=
  let createdEvent : EventRow :=
    { id := st.nextId, creatorId := ctx.currentUserId,
      description := input.description, endAt := input.endAt,
      name := input.name, organizationId := input.organizationId,
      startAt := input.startAt }
  let st1 := { st with events := st.events ++ [createdEvent], nextId := st.nextId + 1 }
  match input.attachments with
  | some mimes =>
    let pr := persistAttachmentsFor ctx.bucketName ctx.currentUserId mimes createdEvent.id st1
    .ok (pr.1, { event := createdEvent, attachments := pr.2 })
  | none => .ok (st1, { event := createdEvent, attachments := [] })

/-- The transaction body of `createEvent.resolve` (lines 170–399): the
recurring path (base event, rule string, expansion, rule row, back-link,
optional first instance and its attachments) with fall-through to the
simple path, or the simple path directly. -/
def txPhase (ctx : Ctx) (input : CreateEventInput) :
    Except ErrCode (TxState × CreateEventRes) :=
  let st0 := TxState.empty
  match input.recurrence with
  | some rec =>
    let baseRecurringEvent : EventRow :=
      { id := st0.nextId, creatorId := ctx.currentUserId,
        description := input.description, name := input.name,
        organizationId := input.organizationId, startAt := input.startAt,
        endAt := input.endAt, isRecurring := true, isBaseRecurringEvent := true }
    let st1 := { st0 with events := st0.events ++ [baseRecurringEvent],
                          nextId := st0.nextId + 1 }
    match generateRecurrenceRuleString (recInputOf rec input.startAt) ctx.now with
    | .error m => .error (.internal m)
    | .ok recurrenceRuleString =>
      let eventDuration : Int := (input.endAt : Int) - (input.startAt : Int)
      let recurrenceEndDate := rec.recurrenceEndDate.getD (addOneYear ctx.now)
      match getRecurringInstanceDates recurrenceRuleString input.startAt
          (some recurrenceEndDate) none ctx.now with
      | .error m => .error (.internal m)
      | .ok instanceDates =>
        let createdRule : RuleRow :=
          { id := st1.nextId, creatorId := ctx.currentUserId,
            recurrenceRuleString := recurrenceRuleString,
            recurrenceStartDate := input.startAt,
            recurrenceEndDate := rec.recurrenceEndDate,
            frequency := rec.frequency,
            interval := (match rec.interval with
              | none => 1
              | some i => if i = 0 then 1 else i),
            count := rec.count, byDay := rec.byDay, byMonth := rec.byMonth,
            byMonthDay := rec.byMonthDay,
            organizationId := input.organizationId,
            baseRecurringEventId := baseRecurringEvent.id,
            latestInstanceDate := instanceDates.getLast?.getD input.startAt }
        let st2 := { st1 with rules := st1.rules ++ [createdRule],
                              nextId := st1.nextId + 1 }
        let st3 := { st2 with events := st2.events.map (fun e =>
          if e.id = baseRecurringEvent.id
          then { e with recurrenceRuleId := some createdRule.id } else e) }
        match instanceDates with
        | firstInstance :: _ =>
          let createdEvent : EventRow :=
            { id := st3.nextId, creatorId := ctx.currentUserId,
              description := input.description, name := input.name,
              organizationId := input.organizationId,
              startAt := firstInstance,
              endAt := ((firstInstance : Int) + eventDuration).toNat,
              isRecurring := true, isBaseRecurringEvent := false,
              baseRecurringEventId := some baseRecurringEvent.id,
              recurrenceRuleId := some createdRule.id }
          let st4 := { st3 with events := st3.events ++ [createdEvent],
                                nextId := st3.nextId + 1 }
          let res : EventRow :=
            { createdEvent with isRecurring := true,
                                recurrenceRuleId := some createdRule.id,
                                baseRecurringEventId := some baseRecurringEvent.id }
          match input.attachments with
          | some mimes =>
            let pr := persistAttachmentsFor ctx.bucketName ctx.currentUserId
              mimes createdEvent.id st4
            .ok (pr.1, { event := res, attachments := pr.2 })
          | none => .ok (st4, { event := res, attachments := [] })
        | [] => simplePath ctx input st3
  | none => simplePath ctx input st0

/-- The membership-based denial condition of lines 153–157:
`currentUser.role !== "administrator" && (membership === undefined ||
membership.role !== "administrator")`, where the membership is the head of
the filtered memberships list. -/
def authDenied (role : UserRole) (org : OrgData) : Prop :=
  role ≠ .administrator ∧ org.memberships.head? ≠ some .administrator

instance (role : UserRole) (org : OrgData) : Decidable (authDenied role org) := by
  unfold authDenied
  infer_instance

/-- `createEvent.resolve` of `createEvent.ts`: session check, argument
validation, the user/organization reads, existence and authorization
checks, then the transaction. -/
def createEvent (ctx : Ctx) (input : CreateEventInput) :
    Except ErrCode (TxState × CreateEventRes) :=
  if ctx.isAuthenticated then
    match checkAttachments ctx.allowedMime input.attachments with
    | issue :: issues => .error (.invalid_arguments (issue :: issues))
    | [] =>
      match ctx.currentUser with
      | none => .error .unauthenticated
      | some role =>
        match ctx.organization with
        | none => .error (.arguments_associated_resources_not_found
            [[.str "input", .str "organizationId"]])
        | some org =>
          if authDenied role org then
            .error (.unauthorized_action_on_arguments_associated_resources
              [[.str "input", .str "organizationId"]])
          else txPhase ctx input
  else .error .unauthenticated

/-! ### Helper lemmas -/

theorem lookupWeekdays_eq_none {l : List String} {c : String}
    (hc : c ∈ l) (hmap : WEEKDAY_MAP c = none) : lookupWeekdays l = none := by
  induction l with
  | nil => cases hc
  | cons x xs ih =>
    rcases List.mem_cons.mp hc with h | h
    · subst h
      simp [lookupWeekdays, hmap]
    · cases hx : WEEKDAY_MAP x <;> simp [lookupWeekdays, hx, ih h]

theorem simplePath_ne_error (ctx : Ctx) (input : CreateEventInput) (st : TxState)
    (e : ErrCode) : simplePath ctx input st ≠ .error e := by
  unfold simplePath
  cases input.attachments <;> simp

theorem txPhase_error_internal (ctx : Ctx) (input : CreateEventInput) (e : ErrCode)
    (h : txPhase ctx input = .error e) : ∃ m, e = .internal m := by
  cases hrec : input.recurrence with
  | none =>
    simp only [txPhase, hrec] at h
    exact absurd h (simplePath_ne_error _ _ _ _)
  | some rec =>
    cases hgen : generateRecurrenceRuleString (recInputOf rec input.startAt) ctx.now with
    | error m =>
      simp only [txPhase, hrec, hgen] at h
      exact ⟨m, by simp_all⟩
    | ok s =>
      cases hexp : getRecurringInstanceDates s input.startAt
          (some (rec.recurrenceEndDate.getD (addOneYear ctx.now))) none ctx.now with
      | error m =>
        simp only [txPhase, hrec, hgen, hexp] at h
        exact ⟨m, by simp_all⟩
      | ok dates =>
        cases dates with
        | nil =>
          simp only [txPhase, hrec, hgen, hexp] at h
          exact absurd h (simplePath_ne_error _ _ _ _)
        | cons d ds =>
          cases hatt : input.attachments <;>
            (simp only [txPhase, hrec, hgen, hexp, hatt] at h
             exact Except.noConfusion h)

/-! ### C5 — unknown byDay codes make encoding fail -/

/-- C5: for every recurrence input whose `byDay` list contains a code with
no `WEEKDAY_MAP` entry (i.e. outside MO/TU/WE/TH/FR/SA/SU), encoding the
recurrence rule string fails instead of producing a rule string. -/
theorem c5_unknown_weekday_fails (r : RecurrenceInput) (now : Instant)
    (l : List String) (c : String) (hby : r.byDay = some l) (hc : c ∈ l)
    (hunk : WEEKDAY_MAP c = none) :
    generateRecurrenceRuleString r now = .error "invalid weekday code in byDay" := by
  cases l with
  | nil => cases hc
  | cons d ds =>
    unfold generateRecurrenceRuleString ruleOptionsOf
    simp only [hby, lookupWeekdays_eq_none hc hunk]
    rfl

theorem c5_unknown_weekday_fails_witness :
    ({ frequency := .WEEKLY, byDay := some ["MO", "XX"] : RecurrenceInput }.byDay
        = some ["MO", "XX"]
      ∧ "XX" ∈ ["MO", "XX"] ∧ WEEKDAY_MAP "XX" = none)
    ∧ generateRecurrenceRuleString
        { frequency := .WEEKLY, byDay := some ["MO", "XX"] } 0
        = .error "invalid weekday code in byDay" :=
  ⟨⟨rfl, by decide, by decide⟩,
    c5_unknown_weekday_fails _ 0 _ "XX" rfl (by decide) (by decide)⟩

/-! ### C6 — encoder determinism -/

/-- C6 counterexample: the encoder is not independent of the invocation
time.  With `recurrenceStartDate` absent, the source's
`dtstart: recurrence.recurrenceStartDate || new Date()` records the
wall-clock time in the DTSTART line, so two calls with identical
parameters at different times return different strings. -/
theorem c6_time_dependence_counterexample :
    generateRecurrenceRuleString { frequency := .DAILY } 0 ≠
      generateRecurrenceRuleString { frequency := .DAILY } msPerDay := by
  decide

/-- C6 amended: the encoder is deterministic in its parameters whenever
`recurrenceStartDate` is present; only an absent start date makes the
output depend on the wall-clock time (through the DTSTART fallback). -/
theorem c6_deterministic_with_start (r : RecurrenceInput) (now1 now2 : Instant)
    (d : Instant) (h : r.recurrenceStartDate = some d) :
    generateRecurrenceRuleString r now1 = generateRecurrenceRuleString r now2 := by
  unfold generateRecurrenceRuleString ruleOptionsOf
  simp [h]

theorem ruleOptionsOf_ok_inv {r : RecurrenceInput} {now : Instant} {o : RuleOptions}
    (h : ruleOptionsOf r now = .ok o) :
    o.interval = (match r.interval with
      | none => 1
      | some i => if i = 0 then 1 else i)
    ∧ o.count = (match r.count with
      | none => none
      | some c => if c = 0 then none else some c) := by
  unfold ruleOptionsOf at h
  rcases hby : r.byDay with _ | l
  · simp only [hby] at h
    cases h
    exact ⟨rfl, rfl⟩
  · cases l with
    | nil =>
      simp only [hby] at h
      cases h
      exact ⟨rfl, rfl⟩
    | cons d ds =>
      simp only [hby] at h
      cases hlw : lookupWeekdays (d :: ds) with
      | none => simp only [hlw] at h; cases h
      | some ws =>
        simp only [hlw] at h
        cases h
        exact ⟨rfl, rfl⟩

theorem ruleFields_no_count {o : RuleOptions} (h : o.count = none) :
    ∀ p ∈ ruleFields o, p.1 ≠ "COUNT" := by
  intro p hp
  rcases o with ⟨f, i, dt, cnt, u, bw, bm, bmd⟩
  simp only at h
  subst h
  cases u <;> cases bw <;> cases bm <;> cases bmd <;>
    simp only [ruleFields, List.append_assoc, List.cons_append, List.nil_append,
      List.append_nil, List.mem_cons, List.mem_singleton, List.not_mem_nil,
      or_false] at hp <;>
    (rcases hp with h1 | h1 | h1 | h1 | h1 | h1 <;> try subst h1) <;>
    simp

/-! ### C10 — the encoder treats zero values as absent -/

/-- C10: the rule-string encoder treats zero values as absent: an interval
of 0 is encoded as the INTERVAL=1 default, and a count of 0 produces no
COUNT field anywhere in the encoded string's fields. -/
theorem c10_zero_treated_as_absent (r : RecurrenceInput) (now : Instant)
    (o : RuleOptions) (ho : ruleOptionsOf r now = .ok o) :
    generateRecurrenceRuleString r now = .ok (toRRuleString o)
    ∧ (r.interval = some 0 → ("INTERVAL", "1") ∈ ruleFields o)
    ∧ (r.count = some 0 → ∀ p ∈ ruleFields o, p.1 ≠ "COUNT") := by
  obtain ⟨hint, hcnt⟩ := ruleOptionsOf_ok_inv ho
  refine ⟨?_, ?_, ?_⟩
  · unfold generateRecurrenceRuleString
    rw [ho]
    rfl
  · intro hi
    rw [hi] at hint
    have hint1 : o.interval = 1 := by simpa using hint
    have hts : toString (1 : Nat) = "1" := rfl
    simp [ruleFields, hint1, hts]
  · intro hc
    rw [hc] at hcnt
    simp only [if_pos rfl] at hcnt
    exact ruleFields_no_count hcnt

theorem c10_zero_treated_as_absent_witness :
    (ruleOptionsOf
        { frequency := .DAILY, interval := some 0, count := some 0,
          recurrenceStartDate := some 0 } 0
      = .ok { freq := .DAILY, interval := 1, dtstart := 0, count := none,
              untilDate := none, byweekday := none, bymonth := none,
              bymonthday := none })
    ∧ (generateRecurrenceRuleString
          { frequency := .DAILY, interval := some 0, count := some 0,
            recurrenceStartDate := some 0 } 0
        = .ok "DTSTART:19700101T000000Z\nRRULE:FREQ=DAILY;INTERVAL=1"
      ∧ ("INTERVAL", "1") ∈ ruleFields
          { freq := .DAILY, interval := 1, dtstart := 0, count := none,
            untilDate := none, byweekday := none, bymonth := none,
            bymonthday := none }
      ∧ ∀ p ∈ ruleFields
          { freq := Frequency.DAILY, interval := 1, dtstart := 0, count := none,
            untilDate := none, byweekday := none, bymonth := none,
            bymonthday := none : RuleOptions }, p.1 ≠ "COUNT") := by
  have h := c10_zero_treated_as_absent
    { frequency := .DAILY, interval := some 0, count := some 0,
      recurrenceStartDate := some 0 } 0
    { freq := .DAILY, interval := 1, dtstart := 0, count := none,
      untilDate := none, byweekday := none, bymonth := none,
      bymonthday := none }
    (by decide)
  refine ⟨by decide, ?_, h.2.1 rfl, h.2.2 rfl⟩
  rw [h.1]
  decide

/-! ### C4 — end-to-end weekly byDay expansion scenario -/

/-- C4: for frequency=WEEKLY, interval=1, byDay=[MO,WE,FR],
start=2024-01-01 (a Monday), count=6, encoding followed by expansion (with
the default one-year bound of the creation path) yields exactly the six
instants January 1, 3, 5, 8, 10 and 12 of 2024, in strictly ascending
order. -/
theorem c4_weekly_byday_scenario :
    ((generateRecurrenceRuleString
        { frequency := .WEEKLY, interval := some 1,
          byDay := some ["MO", "WE", "FR"], count := some 6,
          recurrenceStartDate := some (mkInstant 2024 1 1) }
        (mkInstant 2024 1 1)).bind
      (fun s => getRecurringInstanceDates s (mkInstant 2024 1 1)
        (some (addOneYear (mkInstant 2024 1 1))) none (mkInstant 2024 1 1))
    = .ok [mkInstant 2024 1 1, mkInstant 2024 1 3, mkInstant 2024 1 5,
           mkInstant 2024 1 8, mkInstant 2024 1 10, mkInstant 2024 1 12])
    ∧ (mkInstant 2024 1 1 < mkInstant 2024 1 3
      ∧ mkInstant 2024 1 3 < mkInstant 2024 1 5
      ∧ mkInstant 2024 1 5 < mkInstant 2024 1 8
      ∧ mkInstant 2024 1 8 < mkInstant 2024 1 10
      ∧ mkInstant 2024 1 10 < mkInstant 2024 1 12) := by
  constructor
  · decide
  · decide

/-! ### C3 — count-based expansion truncates at one year -/

/-- C3: for a recurrence specification carrying an occurrence count but no
explicit `recurrenceEndDate`, the expansion performed by the creation path
(whose bound then defaults to one year from the wall-clock time `now`)
returns only instants lying between the start and one year from `now`,
even when the count implies occurrences beyond that horizon. -/
theorem c3_count_capped_at_one_year (rec : RecurrenceSpec) (startAt now : Instant)
    (c : Nat) (s : String) (ds : List Instant)
    (hcount : rec.count = some c) (hend : rec.recurrenceEndDate = none)
    (henc : generateRecurrenceRuleString (recInputOf rec startAt) now = .ok s)
    (hexp : getRecurringInstanceDates s startAt
      (some (rec.recurrenceEndDate.getD (addOneYear now))) none now = .ok ds) :
    ∀ t ∈ ds, startAt ≤ t ∧ t ≤ addOneYear now := by
  rw [hend, Option.getD_none] at hexp
  unfold getRecurringInstanceDates at hexp
  cases hp : parseRuleString s with
  | none => rw [hp] at hexp; cases hexp
  | some rule =>
    rw [hp] at hexp
    simp only [Option.getD_some, Except.ok.injEq] at hexp
    subst hexp
    intro t ht
    have := List.mem_filter.mp ht
    have hb := this.2
    simp only [Bool.and_eq_true, decide_eq_true_eq] at hb
    exact hb

theorem c3_count_capped_at_one_year_witness :
    ({ frequency := some .WEEKLY, count := some 500 : RecurrenceSpec }.count
        = some 500)
    ∧ ({ frequency := some .WEEKLY, count := some 500
          : RecurrenceSpec }.recurrenceEndDate = none)
    ∧ (generateRecurrenceRuleString
        (recInputOf { frequency := some .WEEKLY, count := some 500 }
          (mkInstant 2024 1 1))
        (mkInstant 2024 1 1)
      = .ok "DTSTART:20240101T000000Z\nRRULE:FREQ=WEEKLY;INTERVAL=1;COUNT=500")
    ∧ (getRecurringInstanceDates
        "DTSTART:20240101T000000Z\nRRULE:FREQ=WEEKLY;INTERVAL=1;COUNT=500"
        (mkInstant 2024 1 1)
        (some (addOneYear (mkInstant 2024 1 1))) none (mkInstant 2024 1 1)
      = .ok ((List.range 53).map
          (fun k => mkInstant 2024 1 1 + k * (7 * msPerDay))))
    ∧ ∀ t ∈ (List.range 53).map
        (fun k => mkInstant 2024 1 1 + k * (7 * msPerDay)),
        mkInstant 2024 1 1 ≤ t ∧ t ≤ addOneYear (mkInstant 2024 1 1) := by
  refine ⟨rfl, rfl, by decide, by decide, ?_⟩
  exact c3_count_capped_at_one_year
    { frequency := some .WEEKLY, count := some 500 }
    (mkInstant 2024 1 1) (mkInstant 2024 1 1) 500
    "DTSTART:20240101T000000Z\nRRULE:FREQ=WEEKLY;INTERVAL=1;COUNT=500"
    ((List.range 53).map (fun k => mkInstant 2024 1 1 + k * (7 * msPerDay)))
    rfl rfl (by decide) (by decide)

theorem c6_deterministic_with_start_witness :
    ({ frequency := .DAILY, recurrenceStartDate := some 0 : RecurrenceInput
        }.recurrenceStartDate = some 0)
    ∧ generateRecurrenceRuleString
        { frequency := .DAILY, recurrenceStartDate := some 0 } 0 =
      generateRecurrenceRuleString
        { frequency := .DAILY, recurrenceStartDate := some 0 } msPerDay :=
  ⟨rfl, c6_deterministic_with_start _ 0 msPerDay 0 rfl⟩

theorem createEvent_eq_txPhase (ctx : Ctx) (input : CreateEventInput)
    (role : UserRole) (org : OrgData) (hA : ctx.isAuthenticated = true)
    (hV : checkAttachments ctx.allowedMime input.attachments = [])
    (hU : ctx.currentUser = some role) (horg : ctx.organization = some org)
    (hden : ¬ authDenied role org) :
    createEvent ctx input = txPhase ctx input := by
  simp only [createEvent, hA, hV, hU, horg, if_neg hden, if_true]

theorem enumFrom_filter_allowed_nil (allowed : String → Bool) (l : List String)
    (n : Nat) (h : ∀ x ∈ l, allowed x = true) :
    (l.enumFrom n).filter (fun p => !allowed p.2) = [] := by
  induction l generalizing n with
  | nil => rfl
  | cons x xs ih =>
    have hx : allowed x = true := h x (List.mem_cons_self x xs)
    simp only [List.enumFrom, List.filter_cons, hx, Bool.not_true, if_neg]
    exact ih (n + 1) (fun y hy => h y (List.mem_cons_of_mem x hy))

theorem enumFrom_filter_single (allowed : String → Bool) (pre post : List String)
    (m : String) (n : Nat) (hpre : ∀ x ∈ pre, allowed x = true)
    (hpost : ∀ x ∈ post, allowed x = true) (hm : allowed m = false) :
    ((pre ++ m :: post).enumFrom n).filter (fun p => !allowed p.2)
      = [(n + pre.length, m)] := by
  induction pre generalizing n with
  | nil =>
    simp only [List.nil_append, List.enumFrom, List.filter_cons, hm,
      Bool.not_false, List.length_nil, Nat.add_zero]
    rw [enumFrom_filter_allowed_nil allowed post (n + 1) hpost]
    simp
  | cons x xs ih =>
    have hx : allowed x = true := hpre x (List.mem_cons_self x xs)
    simp only [List.cons_append, List.enumFrom, List.filter_cons, hx, Bool.not_true,
      List.append_eq]
    rw [if_neg (by simp)]
    rw [ih (n + 1) (fun y hy => hpre y (List.mem_cons_of_mem x hy))]
    simp only [List.length_cons]
    congr 2
    omega

theorem checkAttachments_single (allowed : String → Bool) (pre post : List String)
    (m : String) (hpre : ∀ x ∈ pre, allowed x = true)
    (hpost : ∀ x ∈ post, allowed x = true) (hm : allowed m = false) :
    checkAttachments allowed (some (pre ++ m :: post))
      = [{ argumentPath := [.str "input", .str "attachments", .idx pre.length],
           message := "Mime type \"" ++ m ++ "\" is not allowed." }] := by
  simp only [checkAttachments, List.enum]
  rw [enumFrom_filter_single allowed pre post m 0 hpre hpost hm]
  simp

/-! ### C7 — authorization boundary -/

/-- C7: for an authenticated actor with valid arguments and an existing
user row: a non-administrator whose head membership in the target
organization is absent or not an administrator membership is rejected with
the unauthorized code; a stored global administrator never receives the
unauthorized code regardless of membership; and a nonexistent organization
yields the resource-not-found code. -/
theorem c7_authorization (ctx : Ctx) (input : CreateEventInput) (role : UserRole)
    (hA : ctx.isAuthenticated = true)
    (hV : checkAttachments ctx.allowedMime input.attachments = [])
    (hU : ctx.currentUser = some role) :
    ((role ≠ .administrator → ∀ org, ctx.organization = some org →
      org.memberships.head? ≠ some .administrator →
      createEvent ctx input = .error
        (.unauthorized_action_on_arguments_associated_resources
          [[.str "input", .str "organizationId"]]))
    ∧ (role = .administrator → ∀ p, createEvent ctx input ≠ .error
        (.unauthorized_action_on_arguments_associated_resources p))
    ∧ (ctx.organization = none → createEvent ctx input = .error
        (.arguments_associated_resources_not_found
          [[.str "input", .str "organizationId"]]))) := by
  refine ⟨?_, ?_, ?_⟩
  · intro hne org horg hmem
    have hden : authDenied role org := ⟨hne, hmem⟩
    simp only [createEvent, hA, hV, hU, horg, if_pos hden, if_true]
  · intro hrole p
    subst hrole
    cases horg : ctx.organization with
    | none =>
      simp only [createEvent, hA, hV, hU, horg, if_true]
      simp
    | some org =>
      have hden : ¬ authDenied UserRole.administrator org := by
        intro h
        exact h.1 rfl
      rw [createEvent_eq_txPhase ctx input .administrator org hA hV hU horg hden]
      intro h
      obtain ⟨m, hm⟩ := txPhase_error_internal _ _ _ h
      exact ErrCode.noConfusion hm
  · intro horg
    simp only [createEvent, hA, hV, hU, horg, if_true]

theorem c7_authorization_witness :
    (createEvent
        { isAuthenticated := true, currentUserId := "u", currentUser := some .regular,
          organization := some { memberships := [.regular] }, bucketName := "b",
          now := 0, allowedMime := fun _ => true }
        { name := "e", organizationId := "o", startAt := 0, endAt := 0 }
      = .error (.unauthorized_action_on_arguments_associated_resources
          [[.str "input", .str "organizationId"]]))
    ∧ (∀ p, createEvent
        { isAuthenticated := true, currentUserId := "u", currentUser := some .administrator,
          organization := some { memberships := [] }, bucketName := "b",
          now := 0, allowedMime := fun _ => true }
        { name := "e", organizationId := "o", startAt := 0, endAt := 0 }
      ≠ .error (.unauthorized_action_on_arguments_associated_resources p))
    ∧ (createEvent
        { isAuthenticated := true, currentUserId := "u", currentUser := some .regular,
          organization := none, bucketName := "b",
          now := 0, allowedMime := fun _ => true }
        { name := "e", organizationId := "o", startAt := 0, endAt := 0 }
      = .error (.arguments_associated_resources_not_found
          [[.str "input", .str "organizationId"]])) := by
  refine ⟨?_, ?_, ?_⟩
  · exact (c7_authorization
      { isAuthenticated := true, currentUserId := "u", currentUser := some .regular,
        organization := some { memberships := [.regular] }, bucketName := "b",
        now := 0, allowedMime := fun _ => true }
      { name := "e", organizationId := "o", startAt := 0, endAt := 0 }
      .regular rfl rfl rfl).1 (by decide) _ rfl (by decide)
  · exact (c7_authorization
      { isAuthenticated := true, currentUserId := "u", currentUser := some .administrator,
        organization := some { memberships := [] }, bucketName := "b",
        now := 0, allowedMime := fun _ => true }
      { name := "e", organizationId := "o", startAt := 0, endAt := 0 }
      .administrator rfl rfl rfl).2.1 rfl
  · exact (c7_authorization
      { isAuthenticated := true, currentUserId := "u", currentUser := some .regular,
        organization := none, bucketName := "b",
        now := 0, allowedMime := fun _ => true }
      { name := "e", organizationId := "o", startAt := 0, endAt := 0 }
      .regular rfl rfl rfl).2.2 rfl

/-! ### C8 — a single disallowed attachment media type -/

/-- C8: for every authenticated creation request whose attachment list
contains exactly one attachment with a disallowed media type among
otherwise allowed ones, the operation fails with invalid arguments
carrying exactly one issue, whose argument path ends in that attachment's
numeric index; no issue is produced for the allowed attachments. -/
theorem c8_single_invalid_mime (ctx : Ctx) (input : CreateEventInput)
    (pre post : List String) (m : String)
    (hA : ctx.isAuthenticated = true)
    (hatt : input.attachments = some (pre ++ m :: post))
    (hpre : ∀ x ∈ pre, ctx.allowedMime x = true)
    (hpost : ∀ x ∈ post, ctx.allowedMime x = true)
    (hm : ctx.allowedMime m = false) :
    createEvent ctx input = .error (.invalid_arguments
      [{ argumentPath := [.str "input", .str "attachments", .idx pre.length],
         message := "Mime type \"" ++ m ++ "\" is not allowed." }]) := by
  have hchk := checkAttachments_single ctx.allowedMime pre post m hpre hpost hm
  rw [← hatt] at hchk
  simp only [createEvent, hA, hchk, if_true]

theorem c8_single_invalid_mime_witness :
    (["image/png"] ++ "application/evil" :: ["image/jpeg"]
        = ["image/png", "application/evil", "image/jpeg"])
    ∧ createEvent
        { isAuthenticated := true, currentUserId := "u", currentUser := some .administrator,
          organization := some { memberships := [] }, bucketName := "b", now := 0,
          allowedMime := fun s => s = "image/png" || s = "image/jpeg" }
        { name := "e", organizationId := "o", startAt := 0, endAt := 0,
          attachments := some ["image/png", "application/evil", "image/jpeg"] }
      = .error (.invalid_arguments
          [{ argumentPath := [.str "input", .str "attachments", .idx 1],
             message := "Mime type \"application/evil\" is not allowed." }]) := by
  refine ⟨rfl, ?_⟩
  exact c8_single_invalid_mime _ _ ["image/png"] ["image/jpeg"] "application/evil"
    rfl rfl (by decide) (by decide) (by decide)

theorem filterMap_eq_map_of_forall_some {α β : Type} {l : List α}
    {f : α → Option β} {g : α → β} (h : ∀ x ∈ l, f x = some (g x)) :
    l.filterMap f = l.map g := by
  induction l with
  | nil => rfl
  | cons x xs ih =>
    simp only [List.filterMap_cons, h x (List.mem_cons_self x xs), List.map_cons]
    rw [ih (fun y hy => h y (List.mem_cons_of_mem x hy))]

theorem persistAttachmentsFor_events (bucket creator : String) (mimes : List String)
    (eid : Nat) (st : TxState) :
    (persistAttachmentsFor bucket creator mimes eid st).1.events = st.events := rfl

theorem persistAttachmentsFor_rules (bucket creator : String) (mimes : List String)
    (eid : Nat) (st : TxState) :
    (persistAttachmentsFor bucket creator mimes eid st).1.rules = st.rules := rfl

theorem persistAttachmentsFor_attachments (bucket creator : String)
    (mimes : List String) (eid : Nat) (st : TxState) :
    (persistAttachmentsFor bucket creator mimes eid st).1.attachments
      = st.attachments ++ (persistAttachmentsFor bucket creator mimes eid st).2 := rfl

theorem persistAttachmentsFor_rows_length (bucket creator : String)
    (mimes : List String) (eid : Nat) (st : TxState) :
    (persistAttachmentsFor bucket creator mimes eid st).2.length = mimes.length := by
  simp [persistAttachmentsFor]

theorem persistAttachmentsFor_rows_eventId (bucket creator : String)
    (mimes : List String) (eid : Nat) (st : TxState) :
    ∀ a ∈ (persistAttachmentsFor bucket creator mimes eid st).2, a.eventId = eid := by
  intro a ha
  simp only [persistAttachmentsFor, List.mem_map] at ha
  obtain ⟨p, _, hp⟩ := ha
  rw [← hp]

theorem persistAttachmentsFor_blobs (bucket creator : String) (mimes : List String)
    (eid : Nat) (st : TxState) :
    (persistAttachmentsFor bucket creator mimes eid st).1.blobs
      = st.blobs ++ (persistAttachmentsFor bucket creator mimes eid st).2.enum.map
          (fun p => { bucket := bucket, key := p.2.name,
                      contentType := p.2.mimeType, attachmentIndex := p.1 }) := by
  simp only [persistAttachmentsFor]
  congr 1
  apply filterMap_eq_map_of_forall_some
  intro p hp
  have hmem := List.mem_enum_iff_getElem?.mp hp
  have hlt : p.1 < mimes.length := by
    have h1 := (List.getElem?_eq_some.mp hmem).1
    simpa using h1
  rw [List.get?_eq_getElem?]
  simp only [List.getElem?_eq_getElem hlt]

/-! ### C2 — the materialized first instance -/

/-- C2: for every valid authorized recurring creation request whose
expansion yields at least one instant, exactly one additional instance
event row is created, with `startAt` the first expanded instant, `endAt`
that instant plus the authored duration, `isBaseRecurringEvent` false and
both series links set; this instance row, not the base event, is the value
returned to the caller. -/
theorem c2_first_instance (ctx : Ctx) (input : CreateEventInput) (role : UserRole)
    (org : OrgData) (rec : RecurrenceSpec) (s : String) (d : Instant)
    (ds : List Instant)
    (hA : ctx.isAuthenticated = true)
    (hV : checkAttachments ctx.allowedMime input.attachments = [])
    (hU : ctx.currentUser = some role) (horg : ctx.organization = some org)
    (hden : ¬ authDenied role org)
    (hRec : input.recurrence = some rec)
    (hEnc : generateRecurrenceRuleString (recInputOf rec input.startAt) ctx.now
      = .ok s)
    (hExp : getRecurringInstanceDates s input.startAt
      (some (rec.recurrenceEndDate.getD (addOneYear ctx.now))) none ctx.now
      = .ok (d :: ds))
    (hDur : input.startAt ≤ input.endAt) :
    ∃ st res,
      createEvent ctx input = .ok (st, res)
      ∧ st.events.length = 2
      ∧ (st.events.get? 0).map (fun e => e.isBaseRecurringEvent) = some true
      ∧ st.events.get? 1 = some res.event
      ∧ res.event.isBaseRecurringEvent = false
      ∧ res.event.isRecurring = true
      ∧ res.event.startAt = d
      ∧ (res.event.endAt : Int)
          = (d : Int) + ((input.endAt : Int) - (input.startAt : Int))
      ∧ (∃ b, st.events.get? 0 = some b ∧ res.event.baseRecurringEventId = some b.id)
      ∧ (∃ r2, st.rules.get? 0 = some r2 ∧ res.event.recurrenceRuleId = some r2.id) := by
  rw [createEvent_eq_txPhase ctx input role org hA hV hU horg hden]
  have hcast : (input.startAt : Int) ≤ (input.endAt : Int) := by exact_mod_cast hDur
  cases hatt : input.attachments with
  | none =>
    simp only [txPhase, hRec, hEnc, hExp, hatt, TxState.empty, List.nil_append,
      List.map_cons, List.map_nil, List.cons_append]
    refine ⟨_, _, rfl, ?_⟩
    simp
    omega
  | some mimes =>
    simp only [txPhase, hRec, hEnc, hExp, hatt, TxState.empty, List.nil_append,
      List.map_cons, List.map_nil, List.cons_append]
    refine ⟨_, _, rfl, ?_⟩
    simp [persistAttachmentsFor_events, persistAttachmentsFor_rules]
    omega

theorem c2_first_instance_witness :
    (getRecurringInstanceDates
        "DTSTART:20240101T000000Z\nRRULE:FREQ=DAILY;INTERVAL=1;UNTIL=20240101T000000Z"
        (mkInstant 2024 1 1)
        (some ((some (mkInstant 2024 1 1)).getD (addOneYear (mkInstant 2024 1 1))))
        none (mkInstant 2024 1 1)
      = .ok [mkInstant 2024 1 1])
    ∧ ∃ st res,
      createEvent
        { isAuthenticated := true, currentUserId := "u",
          currentUser := some .administrator,
          organization := some { memberships := [] }, bucketName := "b",
          now := mkInstant 2024 1 1, allowedMime := fun _ => true }
        { name := "e", organizationId := "o", startAt := mkInstant 2024 1 1,
          endAt := mkInstant 2024 1 1 + 3600000,
          recurrence := some { frequency := some .DAILY,
                               recurrenceEndDate := some (mkInstant 2024 1 1) } }
        = .ok (st, res)
      ∧ st.events.length = 2
      ∧ (st.events.get? 0).map (fun e => e.isBaseRecurringEvent) = some true
      ∧ st.events.get? 1 = some res.event
      ∧ res.event.isBaseRecurringEvent = false
      ∧ res.event.isRecurring = true
      ∧ res.event.startAt = mkInstant 2024 1 1
      ∧ (res.event.endAt : Int)
          = (mkInstant 2024 1 1 : Int)
            + (((mkInstant 2024 1 1 + 3600000 : Instant) : Int)
              - ((mkInstant 2024 1 1 : Instant) : Int))
      ∧ (∃ b, st.events.get? 0 = some b
          ∧ res.event.baseRecurringEventId = some b.id)
      ∧ (∃ r2, st.rules.get? 0 = some r2
          ∧ res.event.recurrenceRuleId = some r2.id) := by
  constructor
  · decide
  · have h := c2_first_instance
      { isAuthenticated := true, currentUserId := "u",
        currentUser := some .administrator,
        organization := some { memberships := [] }, bucketName := "b",
        now := mkInstant 2024 1 1, allowedMime := fun _ => true }
      { name := "e", organizationId := "o", startAt := mkInstant 2024 1 1,
        endAt := mkInstant 2024 1 1 + 3600000,
        recurrence := some { frequency := some .DAILY,
                             recurrenceEndDate := some (mkInstant 2024 1 1) } }
      .administrator { memberships := [] }
      { frequency := some .DAILY, recurrenceEndDate := some (mkInstant 2024 1 1) }
      "DTSTART:20240101T000000Z\nRRULE:FREQ=DAILY;INTERVAL=1;UNTIL=20240101T000000Z"
      (mkInstant 2024 1 1) []
      rfl rfl rfl rfl (by decide) rfl (by decide) (by decide) (by decide)
    exact h

/-! ### C9 — recurring-path attachment rows and blob writes -/

/-- C9: on the recurring path, when at least one instant was expanded and
attachments were supplied, every created attachment row references the
first-instance event's id (not the base event's id) as its owning event,
and the blob writes are exactly one per row, keyed by the row's generated
name and tagged with the row's media type. -/
theorem c9_recurring_attachments (ctx : Ctx) (input : CreateEventInput)
    (role : UserRole) (org : OrgData) (rec : RecurrenceSpec) (s : String)
    (d : Instant) (ds : List Instant) (mimes : List String)
    (hA : ctx.isAuthenticated = true)
    (hV : checkAttachments ctx.allowedMime input.attachments = [])
    (hU : ctx.currentUser = some role) (horg : ctx.organization = some org)
    (hden : ¬ authDenied role org)
    (hRec : input.recurrence = some rec)
    (hEnc : generateRecurrenceRuleString (recInputOf rec input.startAt) ctx.now
      = .ok s)
    (hExp : getRecurringInstanceDates s input.startAt
      (some (rec.recurrenceEndDate.getD (addOneYear ctx.now))) none ctx.now
      = .ok (d :: ds))
    (hatt : input.attachments = some mimes) :
    ∃ st res,
      createEvent ctx input = .ok (st, res)
      ∧ st.events.get? 1 = some res.event
      ∧ res.event.isBaseRecurringEvent = false
      ∧ res.attachments = st.attachments
      ∧ st.attachments.length = mimes.length
      ∧ (∃ b, st.events.get? 0 = some b ∧ b.isBaseRecurringEvent = true
          ∧ ∀ a ∈ st.attachments, a.eventId = res.event.id ∧ a.eventId ≠ b.id)
      ∧ st.blobs = st.attachments.enum.map
          (fun p => { bucket := ctx.bucketName, key := p.2.name,
                      contentType := p.2.mimeType, attachmentIndex := p.1 }) := by
  rw [createEvent_eq_txPhase ctx input role org hA hV hU horg hden]
  simp only [txPhase, hRec, hEnc, hExp, hatt, TxState.empty, List.nil_append,
    List.map_cons, List.map_nil, List.cons_append]
  refine ⟨_, _, rfl, ?_⟩
  refine ⟨by simp [persistAttachmentsFor_events], by simp, ?_, ?_, ?_, ?_⟩
  · simp [persistAttachmentsFor_attachments]
  · simp [persistAttachmentsFor_attachments, persistAttachmentsFor_rows_length]
  · refine ⟨{ id := 0, creatorId := ctx.currentUserId,
              description := input.description, name := input.name,
              organizationId := input.organizationId, startAt := input.startAt,
              endAt := input.endAt, isRecurring := true,
              isBaseRecurringEvent := true, baseRecurringEventId := none,
              recurrenceRuleId := some 1 },
      by simp [persistAttachmentsFor_events], rfl, ?_⟩
    intro a ha
    simp only [persistAttachmentsFor_attachments, List.nil_append] at ha
    have he := persistAttachmentsFor_rows_eventId ctx.bucketName ctx.currentUserId
      mimes 2 _ a ha
    exact ⟨by simp [he], by simp [he]⟩
  · simp [persistAttachmentsFor_blobs, persistAttachmentsFor_attachments]

theorem c9_recurring_attachments_witness :
    (getRecurringInstanceDates
        "DTSTART:20240101T000000Z\nRRULE:FREQ=DAILY;INTERVAL=1;UNTIL=20240101T000000Z"
        (mkInstant 2024 1 1)
        (some ((some (mkInstant 2024 1 1)).getD (addOneYear (mkInstant 2024 1 1))))
        none (mkInstant 2024 1 1)
      = .ok [mkInstant 2024 1 1])
    ∧ ∃ st res,
      createEvent
        { isAuthenticated := true, currentUserId := "u",
          currentUser := some .administrator,
          organization := some { memberships := [] }, bucketName := "b",
          now := mkInstant 2024 1 1, allowedMime := fun _ => true }
        { name := "e", organizationId := "o", startAt := mkInstant 2024 1 1,
          endAt := mkInstant 2024 1 1 + 3600000,
          recurrence := some { frequency := some .DAILY,
                               recurrenceEndDate := some (mkInstant 2024 1 1) },
          attachments := some ["image/png", "image/jpeg"] }
        = .ok (st, res)
      ∧ st.events.get? 1 = some res.event
      ∧ res.event.isBaseRecurringEvent = false
      ∧ res.attachments = st.attachments
      ∧ st.attachments.length = ["image/png", "image/jpeg"].length
      ∧ (∃ b, st.events.get? 0 = some b ∧ b.isBaseRecurringEvent = true
          ∧ ∀ a ∈ st.attachments, a.eventId = res.event.id ∧ a.eventId ≠ b.id)
      ∧ st.blobs = st.attachments.enum.map
          (fun p => { bucket := "b", key := p.2.name,
                      contentType := p.2.mimeType, attachmentIndex := p.1 }) := by
  constructor
  · decide
  · exact c9_recurring_attachments
      { isAuthenticated := true, currentUserId := "u",
        currentUser := some .administrator,
        organization := some { memberships := [] }, bucketName := "b",
        now := mkInstant 2024 1 1, allowedMime := fun _ => true }
      { name := "e", organizationId := "o", startAt := mkInstant 2024 1 1,
        endAt := mkInstant 2024 1 1 + 3600000,
        recurrence := some { frequency := some .DAILY,
                             recurrenceEndDate := some (mkInstant 2024 1 1) },
        attachments := some ["image/png", "image/jpeg"] }
      .administrator { memberships := [] }
      { frequency := some .DAILY, recurrenceEndDate := some (mkInstant 2024 1 1) }
      "DTSTART:20240101T000000Z\nRRULE:FREQ=DAILY;INTERVAL=1;UNTIL=20240101T000000Z"
      (mkInstant 2024 1 1) [] ["image/png", "image/jpeg"]
      rfl (by decide) rfl rfl (by decide) rfl (by decide) (by decide) rfl

/-! ### C1 — the degenerate recurring path (zero expanded instants) -/

/-- C1 counterexample: with an authorized recurring request whose
expansion yields zero instants (the bound precedes the start), the
operation does not insert exactly the base event row and the rule row: a
third row — a standalone non-recurring event — is also inserted by the
fall-through into the simple path, so two event rows exist, the second
one non-recurring. -/
theorem c1_counterexample :
    (createEvent
        { isAuthenticated := true, currentUserId := "u",
          currentUser := some .administrator,
          organization := some { memberships := [] }, bucketName := "b",
          now := 0, allowedMime := fun _ => true }
        { name := "e", organizationId := "o", startAt := msPerDay,
          endAt := msPerDay,
          recurrence := some { frequency := some .DAILY,
                               recurrenceEndDate := some 0 } }).map
      (fun r => (r.1.events.map (fun e => (e.isRecurring, e.isBaseRecurringEvent)),
                 r.1.rules.length))
      = .ok ([(true, true), (false, false)], 1) := by
  decide

/-- C1 (amended): for every authorized recurring creation request whose
expansion yields zero instants, the operation still completes
successfully, the recurrence rule row's `latestInstanceDate` is the
authored start instant, and no instance event row linked to the series is
created; but in addition to the base event row and the rule row, a third
standalone non-recurring event row is inserted by fall-through into the
simple path, and that standalone row is the value returned. -/
theorem c1_degenerate_fallthrough (ctx : Ctx) (input : CreateEventInput)
    (role : UserRole) (org : OrgData) (rec : RecurrenceSpec) (s : String)
    (hA : ctx.isAuthenticated = true)
    (hV : checkAttachments ctx.allowedMime input.attachments = [])
    (hU : ctx.currentUser = some role) (horg : ctx.organization = some org)
    (hden : ¬ authDenied role org)
    (hRec : input.recurrence = some rec)
    (hEnc : generateRecurrenceRuleString (recInputOf rec input.startAt) ctx.now
      = .ok s)
    (hExp : getRecurringInstanceDates s input.startAt
      (some (rec.recurrenceEndDate.getD (addOneYear ctx.now))) none ctx.now
      = .ok []) :
    ∃ st res,
      createEvent ctx input = .ok (st, res)
      ∧ st.events.map (fun e =>
          (e.isRecurring, e.isBaseRecurringEvent, e.baseRecurringEventId))
        = [(true, true, none), (false, false, none)]
      ∧ (st.rules.map fun r => r.latestInstanceDate) = [input.startAt]
      ∧ res.event.isRecurring = false
      ∧ res.event.isBaseRecurringEvent = false
      ∧ res.event.baseRecurringEventId = none
      ∧ res.event.recurrenceRuleId = none
      ∧ st.events.get? 1 = some res.event := by
  rw [createEvent_eq_txPhase ctx input role org hA hV hU horg hden]
  cases hatt : input.attachments with
  | none =>
    simp only [txPhase, hRec, hEnc, hExp, hatt, simplePath, TxState.empty,
      List.nil_append, List.map_cons, List.map_nil, List.cons_append]
    refine ⟨_, _, rfl, ?_⟩
    simp
  | some mimes =>
    simp only [txPhase, hRec, hEnc, hExp, hatt, simplePath, TxState.empty,
      List.nil_append, List.map_cons, List.map_nil, List.cons_append]
    refine ⟨_, _, rfl, ?_⟩
    simp [persistAttachmentsFor_events, persistAttachmentsFor_rules]

theorem c1_degenerate_fallthrough_witness :
    (getRecurringInstanceDates
        "DTSTART:19700102T000000Z\nRRULE:FREQ=DAILY;INTERVAL=1;UNTIL=19700101T000000Z"
        msPerDay (some ((some (0 : Instant)).getD (addOneYear 0))) none 0
      = .ok [])
    ∧ ∃ st res,
      createEvent
        { isAuthenticated := true, currentUserId := "u",
          currentUser := some .administrator,
          organization := some { memberships := [] }, bucketName := "b",
          now := 0, allowedMime := fun _ => true }
        { name := "e", organizationId := "o", startAt := msPerDay,
          endAt := msPerDay,
          recurrence := some { frequency := some .DAILY,
                               recurrenceEndDate := some 0 } }
        = .ok (st, res)
      ∧ st.events.map (fun e =>
          (e.isRecurring, e.isBaseRecurringEvent, e.baseRecurringEventId))
        = [(true, true, none), (false, false, none)]
      ∧ (st.rules.map fun r => r.latestInstanceDate) = [msPerDay]
      ∧ res.event.isRecurring = false
      ∧ res.event.isBaseRecurringEvent = false
      ∧ res.event.baseRecurringEventId = none
      ∧ res.event.recurrenceRuleId = none
      ∧ st.events.get? 1 = some res.event := by
  constructor
  · decide
  · exact c1_degenerate_fallthrough
      { isAuthenticated := true, currentUserId := "u",
        currentUser := some .administrator,
        organization := some { memberships := [] }, bucketName := "b",
        now := 0, allowedMime := fun _ => true }
      { name := "e", organizationId := "o", startAt := msPerDay,
        endAt := msPerDay,
        recurrence := some { frequency := some .DAILY,
                             recurrenceEndDate := some 0 } }
      .administrator { memberships := [] }
      { frequency := some .DAILY, recurrenceEndDate := some 0 }
      "DTSTART:19700102T000000Z\nRRULE:FREQ=DAILY;INTERVAL=1;UNTIL=19700101T000000Z"
      rfl rfl rfl rfl (by decide) rfl (by decide) (by decide)

end Talawa
